import Mathlib

/-!
# Wii remote reader scripts: formal model and verification

Shallow embedding of `src/pi/wii_remote_reader.py` and
`src/pi/simple_wii_example.py`: the formatting helpers, the polling loops
and the teardown logic, together with theorems checking the
specification's claims about them.  Machine integers are modelled as
`Nat` (the button bitmask is a nonnegative integer in Python), battery
ratios as `ℚ`, and the external driver's behaviour as explicit event
lists fed to the loop bodies.
-/

namespace WiiVerify

/-! ## Button code constants

Values of the external cwiid driver library (`cwiid.BTN_*`), as imported
by both scripts. -/

namespace Cwiid

def BTN_2 : Nat := 0x0001

def BTN_1 : Nat := 0x0002

def BTN_B : Nat := 0x0004

def BTN_A : Nat := 0x0008

def BTN_MINUS : Nat := 0x0010

def BTN_HOME : Nat := 0x0080

def BTN_LEFT : Nat := 0x0100

def BTN_RIGHT : Nat := 0x0200

def BTN_DOWN : Nat := 0x0400

def BTN_UP : Nat := 0x0800

def BTN_PLUS : Nat := 0x1000

end Cwiid

/-! ## Python string primitives used by the scripts -/

/-- Python `sep.join(xs)`. -/
def pyJoin (sep : String) : List String → String
  | [] => ""
  | [x] => x
  | x :: y :: ys => x ++ sep ++ pyJoin sep (y :: ys)

/-- Python format spec `:3d`: decimal digits, sign included, padded on
the left with spaces to a minimum width of 3. -/
def fmtD3 (x : Int) : String :=
  String.mk (List.replicate (3 - (toString x).length) ' ') ++ toString x

/-! ## State snapshot (`self.wiimote.state`)

One sampled reading of the enabled channels: battery ratio, button
bitmask, accelerometer triple and up to four optional IR sources. -/

structure WiimoteState where
  battery : ℚ
  buttons : Nat
  acc : Int × Int × Int
  ir_src : List (Option (Int × Int × Int))

/-! ## `WiiRemoteReader` formatting helpers -/

/-- `WiiRemoteReader.get_button_name` (lines 61-76): the ordered lookup
table from button code to display label, with the `UNKNOWN(code)`
fallback of `dict.get`. -/
def get_button_name (button : Nat) : String :=
  if button = Cwiid.BTN_1 then "1"
  else if button = Cwiid.BTN_2 then "2"
  else if button = Cwiid.BTN_A then "A"
  else if button = Cwiid.BTN_B then "B"
  else if button = Cwiid.BTN_PLUS then "PLUS"
  else if button = Cwiid.BTN_MINUS then "MINUS"
  else if button = Cwiid.BTN_HOME then "HOME"
  else if button = Cwiid.BTN_LEFT then "LEFT"
  else if button = Cwiid.BTN_RIGHT then "RIGHT"
  else if button = Cwiid.BTN_UP then "UP"
  else if button = Cwiid.BTN_DOWN then "DOWN"
  else "UNKNOWN(" ++ toString button ++ ")"

/-- `WiiRemoteReader.format_accelerometer` (lines 78-81). -/
def format_accelerometer (acc : Int × Int × Int) : String :=
  "X: " ++ fmtD3 acc.1 ++ ", Y: " ++ fmtD3 acc.2.1 ++ ", Z: " ++ fmtD3 acc.2.2

/-- One rendered IR slot, `f"Source{i+1}: ({x:3d}, {y:3d}) size:{size:3d}"`
(line 92). -/
def slot_render (i : Nat) (s : Int × Int × Int) : String :=
  "Source" ++ toString (i + 1) ++ ": (" ++ fmtD3 s.1 ++ ", " ++ fmtD3 s.2.1 ++
    ") size:" ++ fmtD3 s.2.2

/-- The `for i, source in enumerate(ir)` loop of `format_ir`
(lines 88-92), carrying the running index. -/
def ir_renders : Nat → List (Option (Int × Int × Int)) → List String
  | _, [] => []
  | i, none :: rest => ir_renders (i + 1) rest
  | i, some s :: rest => slot_render i s :: ir_renders (i + 1) rest

/-- `WiiRemoteReader.format_ir` (lines 83-94). -/
def format_ir (ir : List (Option (Int × Int × Int))) : String :=
  if ir = [] then "No IR sources detected"
  else
    if ir_renders 0 ir = [] then "No IR sources detected"
    else pyJoin " | " (ir_renders 0 ir)

/-- `WiiRemoteReader.get_battery_level` (lines 96-100): the handle field
`self.wiimote` is `None` before connection, so the argument is an
optional state. -/
def get_battery_level (wiimote : Option WiimoteState) : ℚ :=
  match wiimote with
  | some w => w.battery * 100
  | none => 0

/-- The button-iteration order of `read_inputs` (lines 126-128), which
coincides with the declaration order of the lookup table. -/
def button_order : List Nat :=
  [Cwiid.BTN_1, Cwiid.BTN_2, Cwiid.BTN_A, Cwiid.BTN_B, Cwiid.BTN_PLUS, Cwiid.BTN_MINUS,
   Cwiid.BTN_HOME, Cwiid.BTN_LEFT, Cwiid.BTN_RIGHT, Cwiid.BTN_UP, Cwiid.BTN_DOWN]

/-- The `pressed_buttons` list built by `read_inputs` (lines 125-130). -/
def pressed_buttons (buttons : Nat) : List String :=
  button_order.filterMap fun code =>
    if buttons &&& code ≠ 0 then some (get_button_name code) else none

/-- The button line printed by `read_inputs` (lines 122-134). -/
def buttons_line (buttons : Nat) : String :=
  if buttons ≠ 0 then
    if pressed_buttons buttons ≠ [] then "Buttons: " ++ pyJoin ", " (pressed_buttons buttons)
    else "Buttons: None"
  else "Buttons: None"

/-! ## Theorems: formatting helpers -/

/-- C7: `format_accelerometer` renders the three axes as fixed-width
(at least 3 columns) signed decimal integers, and the mid-scale reading
`(512, 512, 512)` renders exactly as `"X: 512, Y: 512, Z: 512"`. -/
theorem format_accelerometer_spec :
    (∀ x : Int, 3 ≤ (fmtD3 x).length) ∧
    (∀ x y z : Int, format_accelerometer (x, y, z) =
        "X: " ++ fmtD3 x ++ ", Y: " ++ fmtD3 y ++ ", Z: " ++ fmtD3 z) ∧
    format_accelerometer (512, 512, 512) = "X: 512, Y: 512, Z: 512" := by
  refine ⟨fun x => ?_, fun x y z => rfl, by decide⟩
  have h : (fmtD3 x).length = (3 - (toString x).length) + (toString x).length := by
    have hd : (fmtD3 x).data =
        List.replicate (3 - (toString x).length) ' ' ++ (toString x).data := rfl
    have hl : (fmtD3 x).length = (fmtD3 x).data.length := rfl
    rw [hl, hd, List.length_append, List.length_replicate]
    rfl
  omega

/-- C8: `get_button_name` is total: each of the 11 known codes maps to
its display label, and every other code maps to the fallback
`UNKNOWN(code)`. -/
theorem get_button_name_total :
    (get_button_name Cwiid.BTN_1 = "1" ∧ get_button_name Cwiid.BTN_2 = "2" ∧
     get_button_name Cwiid.BTN_A = "A" ∧ get_button_name Cwiid.BTN_B = "B" ∧
     get_button_name Cwiid.BTN_PLUS = "PLUS" ∧ get_button_name Cwiid.BTN_MINUS = "MINUS" ∧
     get_button_name Cwiid.BTN_HOME = "HOME" ∧ get_button_name Cwiid.BTN_LEFT = "LEFT" ∧
     get_button_name Cwiid.BTN_RIGHT = "RIGHT" ∧ get_button_name Cwiid.BTN_UP = "UP" ∧
     get_button_name Cwiid.BTN_DOWN = "DOWN") ∧
    ∀ b : Nat, b ∉ button_order → get_button_name b = "UNKNOWN(" ++ toString b ++ ")" := by
  constructor
  · exact ⟨rfl, rfl, rfl, rfl, rfl, rfl, rfl, rfl, rfl, rfl, rfl⟩
  · intro b hb
    simp only [button_order, List.mem_cons, List.not_mem_nil, or_false, not_or] at hb
    obtain ⟨h1, h2, h3, h4, h5, h6, h7, h8, h9, h10, h11⟩ := hb
    simp [get_button_name, h1, h2, h3, h4, h5, h6, h7, h8, h9, h10, h11]

/-- C8 witness: code 3 is unknown and maps to the fallback string. -/
theorem get_button_name_total_witness :
    (3 : Nat) ∉ button_order ∧ get_button_name 3 = "UNKNOWN(" ++ toString (3 : Nat) ++ ")" :=
  ⟨by decide, get_button_name_total.2 3 (by decide)⟩

/-! ## Helper lemmas on strings and joins -/

/-- A join of a nonempty list starts with its first element. -/
theorem pyJoin_cons (sep x : String) (xs : List String) :
    ∃ t : String, pyJoin sep (x :: xs) = x ++ t := by
  cases xs with
  | nil => exact ⟨"", (String.append_empty x).symm⟩
  | cons y ys => exact ⟨sep ++ pyJoin sep (y :: ys), String.append_assoc x sep _⟩

/-- Appending on the right keeps the first character. -/
theorem append_head (a b : String) (c : Char) (ha : a.data.head? = some c) :
    (a ++ b).data.head? = some c := by
  rw [String.data_append]
  cases hA : a.data with
  | nil => rw [hA] at ha; simp at ha
  | cons e es => rw [hA] at ha; simpa using ha

/-- Strings whose first characters differ are different, even after
appending on the right. -/
theorem append_head_ne (a t b : String) (c d : Char) (ha : a.data.head? = some c)
    (hb : b.data.head? = some d) (hcd : c ≠ d) : a ++ t ≠ b := by
  intro h
  have hd : a.data ++ t.data = b.data := by
    have := congrArg String.data h
    rwa [String.data_append] at this
  have hh : (a.data ++ t.data).head? = some c := by
    cases hA : a.data with
    | nil => rw [hA] at ha; simp at ha
    | cons e es => rw [hA] at ha; simpa using ha
  rw [hd, hb] at hh
  exact hcd (Option.some.inj hh.symm)

/-! ## Theorems: IR formatting (C5) -/

/-- Modelled from the spec: the present IR slots in index order, each
rendered from its index and values. -/
def spec_ir_lines (ir : List (Option (Int × Int × Int))) : List String :=
  ir.enum.filterMap fun p => p.2.map fun s => slot_render p.1 s

theorem ir_renders_eq (k : Nat) (ir : List (Option (Int × Int × Int))) :
    ir_renders k ir =
      (List.enumFrom k ir).filterMap fun p => p.2.map fun s => slot_render p.1 s := by
  induction ir generalizing k with
  | nil => rfl
  | cons hd tl ih =>
    cases hd with
    | none => simp [ir_renders, List.enumFrom, List.filterMap_cons, ih]
    | some s => simp [ir_renders, List.enumFrom, List.filterMap_cons, ih]

theorem ir_renders_eq_nil (k : Nat) (ir : List (Option (Int × Int × Int))) :
    ir_renders k ir = [] ↔ ∀ s ∈ ir, s = none := by
  induction ir generalizing k with
  | nil => simp [ir_renders]
  | cons hd tl ih =>
    cases hd with
    | none => simp [ir_renders, ih]
    | some s => simp [ir_renders]

theorem slot_render_head (i : Nat) (s : Int × Int × Int) :
    (slot_render i s).data.head? = some 'S' := by
  simp only [slot_render]
  iterate 7 apply append_head
  rfl

theorem mem_ir_renders (k : Nat) (ir : List (Option (Int × Int × Int))) (x : String)
    (hx : x ∈ ir_renders k ir) : ∃ i s, x = slot_render i s := by
  induction ir generalizing k with
  | nil => simp [ir_renders] at hx
  | cons hd tl ih =>
    cases hd with
    | none =>
      simp only [ir_renders] at hx
      exact ih (k + 1) hx
    | some s =>
      simp only [ir_renders, List.mem_cons] at hx
      rcases hx with h | h
      · exact ⟨k, s, h⟩
      · exact ih (k + 1) h

/-- C5: for IR slot sequences with an arbitrary subset of slots absent,
`format_ir` renders exactly the present slots in index order joined by
`" | "`, and renders the sentinel iff every slot is absent. -/
theorem format_ir_spec (ir : List (Option (Int × Int × Int))) (hlen : ir.length ≤ 4) :
    format_ir ir = (if spec_ir_lines ir = [] then "No IR sources detected"
                    else pyJoin " | " (spec_ir_lines ir)) ∧
    (format_ir ir = "No IR sources detected" ↔ ∀ s ∈ ir, s = none) := by
  have hlines : ir_renders 0 ir = spec_ir_lines ir := by
    rw [ir_renders_eq]; rfl
  have hjoin : ir_renders 0 ir ≠ [] →
      pyJoin " | " (ir_renders 0 ir) ≠ "No IR sources detected" := by
    intro hne
    obtain ⟨x, xs, hxs⟩ : ∃ x xs, ir_renders 0 ir = x :: xs := by
      cases hpb : ir_renders 0 ir with
      | nil => exact absurd hpb hne
      | cons a as => exact ⟨a, as, rfl⟩
    obtain ⟨i, s, hx⟩ := mem_ir_renders 0 ir x (by rw [hxs]; exact List.mem_cons_self x xs)
    obtain ⟨t, ht⟩ := pyJoin_cons " | " x xs
    rw [hxs, ht]
    exact append_head_ne x t _ 'S' 'N' (hx ▸ slot_render_head i s) rfl (by decide)
  constructor
  · by_cases hir : ir = []
    · subst hir
      simp [format_ir, spec_ir_lines]
    · rw [format_ir, if_neg hir, hlines]
  · constructor
    · intro h
      rw [← ir_renders_eq_nil 0]
      by_cases hp : ir_renders 0 ir = []
      · exact hp
      · exfalso
        have hir : ir ≠ [] := by
          intro hnil
          exact hp (by rw [hnil]; rfl)
        rw [format_ir, if_neg hir, if_neg hp] at h
        exact hjoin hp h
    · intro h
      have hp : ir_renders 0 ir = [] := (ir_renders_eq_nil 0 ir).mpr h
      by_cases hir : ir = []
      · rw [format_ir, if_pos hir]
      · rw [format_ir, if_neg hir, if_pos hp]

/-- C5 witness: a two-slot sequence with the first slot absent. -/
theorem format_ir_spec_witness :
    ([none, some ((1 : Int), (2 : Int), (3 : Int))] :
        List (Option (Int × Int × Int))).length ≤ 4 ∧
    (format_ir [none, some ((1 : Int), (2 : Int), (3 : Int))] =
        (if spec_ir_lines [none, some ((1 : Int), (2 : Int), (3 : Int))] = []
         then "No IR sources detected"
         else pyJoin " | " (spec_ir_lines [none, some ((1 : Int), (2 : Int), (3 : Int))])) ∧
      (format_ir [none, some ((1 : Int), (2 : Int), (3 : Int))] = "No IR sources detected" ↔
        ∀ s ∈ ([none, some ((1 : Int), (2 : Int), (3 : Int))] :
            List (Option (Int × Int × Int))), s = none)) :=
  ⟨by decide, format_ir_spec _ (by decide)⟩

/-! ## Theorems: button line (C1) -/

/-- Modelled from the spec: the labels whose known bit is set in the
bitmask, in the fixed declared order. -/
def spec_button_labels (B : Nat) : List String :=
  [(Cwiid.BTN_1, "1"), (Cwiid.BTN_2, "2"), (Cwiid.BTN_A, "A"), (Cwiid.BTN_B, "B"),
   (Cwiid.BTN_PLUS, "PLUS"), (Cwiid.BTN_MINUS, "MINUS"), (Cwiid.BTN_HOME, "HOME"),
   (Cwiid.BTN_LEFT, "LEFT"), (Cwiid.BTN_RIGHT, "RIGHT"), (Cwiid.BTN_UP, "UP"),
   (Cwiid.BTN_DOWN, "DOWN")].filterMap fun p => if B &&& p.1 ≠ 0 then some p.2 else none

theorem pressed_eq (B : Nat) : pressed_buttons B = spec_button_labels B := by
  simp only [pressed_buttons, spec_button_labels, button_order, List.filterMap_cons,
    List.filterMap_nil,
    show get_button_name Cwiid.BTN_1 = "1" from rfl,
    show get_button_name Cwiid.BTN_2 = "2" from rfl,
    show get_button_name Cwiid.BTN_A = "A" from rfl,
    show get_button_name Cwiid.BTN_B = "B" from rfl,
    show get_button_name Cwiid.BTN_PLUS = "PLUS" from rfl,
    show get_button_name Cwiid.BTN_MINUS = "MINUS" from rfl,
    show get_button_name Cwiid.BTN_HOME = "HOME" from rfl,
    show get_button_name Cwiid.BTN_LEFT = "LEFT" from rfl,
    show get_button_name Cwiid.BTN_RIGHT = "RIGHT" from rfl,
    show get_button_name Cwiid.BTN_UP = "UP" from rfl,
    show get_button_name Cwiid.BTN_DOWN = "DOWN" from rfl]

theorem pressed_empty_iff (B : Nat) :
    pressed_buttons B = [] ↔ ∀ c ∈ button_order, B &&& c = 0 := by
  constructor
  · intro h c hc
    have hmem := (List.filterMap_eq_nil_iff.mp h) c hc
    by_contra hne
    simp [hne] at hmem
  · intro h
    apply List.filterMap_eq_nil_iff.mpr
    intro c hc
    simp [h c hc]

theorem pressed_head (B : Nat) (x : String) (hx : x ∈ pressed_buttons B) :
    ∃ c, x.data.head? = some c ∧ c ≠ 'N' := by
  simp only [pressed_buttons, List.mem_filterMap] at hx
  obtain ⟨code, hcode, heq⟩ := hx
  have hx' : x = get_button_name code := by
    by_cases hc : B &&& code ≠ 0
    · rw [if_pos hc] at heq; exact (Option.some.inj heq).symm
    · rw [if_neg hc] at heq; cases heq
  subst hx'
  fin_cases hcode <;> exact ⟨_, rfl, by decide⟩

/-- C1 (amended): the button line lists exactly the labels of the known
bits set in the bitmask, in the fixed declared order joined by `", "`,
and lists the sentinel `"None"` iff no known button bit is set. -/
theorem buttons_line_spec (B : Nat) :
    buttons_line B = (if spec_button_labels B = [] then "Buttons: None"
                      else "Buttons: " ++ pyJoin ", " (spec_button_labels B)) ∧
    (buttons_line B = "Buttons: None" ↔ ∀ c ∈ button_order, B &&& c = 0) := by
  have hpe := pressed_eq B
  have hJoinNe : pressed_buttons B ≠ [] →
      "Buttons: " ++ pyJoin ", " (pressed_buttons B) ≠ "Buttons: None" := by
    intro hne h
    have hcancel : pyJoin ", " (pressed_buttons B) = "None" := by
      have hd := congrArg String.data h
      rw [String.data_append,
        show ("Buttons: None").data = ("Buttons: ").data ++ ("None").data from rfl] at hd
      exact String.ext (List.append_cancel_left hd)
    obtain ⟨x, xs, hxs⟩ : ∃ x xs, pressed_buttons B = x :: xs := by
      cases hpb : pressed_buttons B with
      | nil => exact absurd hpb hne
      | cons a as => exact ⟨a, as, rfl⟩
    obtain ⟨t, ht⟩ := pyJoin_cons ", " x xs
    rw [hxs, ht] at hcancel
    obtain ⟨c, hc, hcN⟩ := pressed_head B x (by rw [hxs]; exact List.mem_cons_self x xs)
    exact append_head_ne x t "None" c 'N' hc rfl hcN hcancel
  constructor
  · by_cases hB : B = 0
    · subst hB
      simp [buttons_line, show spec_button_labels 0 = [] from by decide]
    · rw [buttons_line, if_pos hB, hpe]
      by_cases hp : spec_button_labels B = []
      · rw [if_neg (not_not.mpr hp), if_pos hp]
      · rw [if_pos hp, if_neg hp]
  · constructor
    · intro h
      by_cases hp : pressed_buttons B = []
      · exact (pressed_empty_iff B).mp hp
      · exfalso
        by_cases hB : B = 0
        · exact hp ((pressed_empty_iff B).mpr fun c hc => by simp [hB])
        · rw [buttons_line, if_pos hB, if_pos hp] at h
          exact hJoinNe hp h
    · intro h
      have hp : pressed_buttons B = [] := (pressed_empty_iff B).mpr h
      by_cases hB : B = 0
      · simp [buttons_line, hB]
      · rw [buttons_line, if_pos hB, if_neg (not_not.mpr hp)]

/-- C1 counterexample: the bitmask 32 (0x20, not a known button bit) is
nonzero yet the button line is the sentinel, refuting the claimed
"None iff B == 0". -/
theorem buttons_line_counterexample :
    ¬(buttons_line 32 = "Buttons: None" ↔ (32 : Nat) = 0) := by decide

/-! ## One-decimal rendering (Python format spec `.1f`) -/

/-- Round to the nearest integer, ties to even (the rounding Python
applies both in `round(x, 1)` and in `:.1f` formatting). -/
def roundHalfEven (q : ℚ) : ℤ :=
  if q - ⌊q⌋ < 1 / 2 then ⌊q⌋
  else if 1 / 2 < q - ⌊q⌋ then ⌊q⌋ + 1
  else if ⌊q⌋ % 2 = 0 then ⌊q⌋ else ⌊q⌋ + 1

/-- The numeric value displayed by `:.1f`. -/
def fix1_value (q : ℚ) : ℚ := (roundHalfEven (q * 10) : ℚ) / 10

/-- The string rendered by `:.1f`. -/
def fmtFix1 (q : ℚ) : String :=
  let n := (roundHalfEven (q * 10)).natAbs
  (if roundHalfEven (q * 10) < 0 then "-" else "") ++
    toString (n / 10) ++ "." ++ toString (n % 10)

/-- Modelled from the spec: `round(x, 1 decimal)`. -/
def spec_round1 (x : ℚ) : ℚ := (roundHalfEven (x * 10) : ℚ) / 10

/-- Python `bin(n)` for a nonnegative integer. -/
def pyBin (n : Nat) : String := "0b" ++ String.mk (Nat.toDigits 2 n)

/-! ## The reader's poll loop (`read_inputs`, lines 102-157) -/

/-- The frame printed by one successful iteration of `read_inputs`
(lines 113-147), in print order. -/
def renderFrame (s : WiimoteState) : List String :=
  ["\x1b[2J\x1b[H",
   "=== Wii Remote Input Reader ===",
   "Battery: " ++ fmtFix1 (get_battery_level (some s)) ++ "%",
   String.mk (List.replicate 30 '='),
   buttons_line s.buttons,
   "Accelerometer: " ++ format_accelerometer s.acc,
   "IR Sensor: " ++ format_ir s.ir_src,
   "Raw Button State: " ++ pyBin s.buttons,
   "\nPress Ctrl+C to exit"]

/-- What the driver delivers to one loop iteration: a state snapshot, a
keyboard interrupt, or a read failure. -/
inductive PollEvent where
  | ok (s : WiimoteState)
  | interrupt
  | failure (msg : String)

/-- One iteration of the `read_inputs` loop body: its output lines, and
whether the iteration leaves the loop.  A snapshot iteration renders the
frame and continues; an interrupt or a read failure prints a message and
breaks. -/
def read_inputs_iteration : PollEvent → List String × Bool
  | .ok s => (renderFrame s, false)
  | .interrupt => (["\nExiting..."], true)
  | .failure m => (["Error reading input: " ++ m], true)

/-- The `read_inputs` loop run on a list of delivered events: `none`
when the events are exhausted with the loop still running. -/
def read_inputs_loop : List PollEvent → Option (List String)
  | [] => none
  | e :: es =>
    let r := read_inputs_iteration e
    if r.2 then some r.1
    else (read_inputs_loop es).map (r.1 ++ ·)

/-- The banner printed by `read_inputs` before its loop (lines 104-106). -/
def read_inputs_preamble : List String :=
  ["\n=== Wii Remote Input Reader ===", "Press Ctrl+C to exit",
   String.mk (List.replicate 30 '=')]

/-! ## Process-level models -/

inductive ProcessExit where
  | normal (code : Nat)
  | uncaught (msg : String)

/-- Observable outcome of one process run: printed lines, number of
`close()` calls on the device handle, exit path, and whether the poll
loop was entered. -/
structure RunResult where
  outputs : List String
  closes : Nat
  exit : ProcessExit
  loopEntered : Bool

/-- Lines printed by `WiiRemoteReader.connect` (lines 31-52): the success
path, or the `RuntimeError` path with its guidance messages. -/
def connect_outputs (ok : Bool) (errMsg : String) : List String :=
  if ok then ["Press 1+2 on your Wii remote to connect...", "Connected to Wii remote!"]
  else ["Press 1+2 on your Wii remote to connect...", "Failed to connect: " ++ errMsg,
        "Make sure your Wii remote is in discoverable mode (press 1+2)"]

/-- The handle field after `connect`: set on success, still `None` after
a failure (the exception is raised before the assignment completes). -/
def connect_result (ok : Bool) : Option Unit := if ok then some () else none

/-- `WiiRemoteReader.disconnect` (lines 54-59): closes the handle only
when one is held.  First component: number of `close()` calls. -/
def disconnect (wiimote : Option Unit) : Nat × List String :=
  match wiimote with
  | some _ => (1, ["Disconnected from Wii remote"])
  | none => (0, [])

/-- `WiiRemoteReader.start` (lines 159-167): on successful connect, run
`read_inputs` with `disconnect` in a `finally`; otherwise print a message
and return.  `none` when the events never terminate the loop. -/
def WiiRemoteReader_start (ok : Bool) (errMsg : String) (events : List PollEvent) :
    Option RunResult :=
  if ok then
    (read_inputs_loop events).map fun out =>
      let d := disconnect (connect_result true)
      { outputs := connect_outputs true errMsg ++ read_inputs_preamble ++ out ++ d.2,
        closes := d.1, exit := .normal 0, loopEntered := true }
  else
    some { outputs := connect_outputs false errMsg ++ ["Could not connect to Wii remote"],
           closes := 0, exit := .normal 0, loopEntered := false }

/-! ## The simple variant (`simple_wii_example.py`) -/

/-- What the driver delivers to one iteration of the simple loop: a
button bitmask, a keyboard interrupt, a `RuntimeError`, or some other
exception. -/
inductive SimpleEvent where
  | ok (buttons : Nat)
  | interrupt
  | runtimeError (msg : String)
  | otherError (msg : String)

/-- How the simple loop ended. -/
inductive TermCause where
  | sentinel
  | interrupt
  | runtimeError (msg : String)
  | otherError (msg : String)

/-- One iteration of the simple loop body (lines 33-50): per-button
messages in the checked order, and `break` on the HOME bit. -/
def simple_iteration (buttons : Nat) : List String × Bool :=
  let out :=
    (if buttons &&& Cwiid.BTN_A ≠ 0 then ["A button pressed!"] else []) ++
    (if buttons &&& Cwiid.BTN_B ≠ 0 then ["B button pressed!"] else []) ++
    (if buttons &&& Cwiid.BTN_1 ≠ 0 then ["1 button pressed!"] else []) ++
    (if buttons &&& Cwiid.BTN_2 ≠ 0 then ["2 button pressed!"] else [])
  if buttons &&& Cwiid.BTN_HOME ≠ 0 then (out ++ ["HOME button pressed!"], true)
  else (out, false)

/-- The simple `while True` loop on a list of delivered events: `none`
when the events are exhausted with the loop still running. -/
def simple_loop : List SimpleEvent → Option (List String × TermCause)
  | [] => none
  | .ok b :: es =>
    let r := simple_iteration b
    if r.2 then some (r.1, .sentinel)
    else (simple_loop es).map fun p => (r.1 ++ p.1, p.2)
  | .interrupt :: _ => some ([], .interrupt)
  | .runtimeError m :: _ => some ([], .runtimeError m)
  | .otherError m :: _ => some ([], .otherError m)

def simple_intro : List String :=
  ["Simple Wii Remote Example", "Press 1+2 on your Wii remote to connect..."]

def simple_setup : List String :=
  ["Connected!", "Press buttons on your Wii remote (Ctrl+C to exit)"]

/-- The `finally` block (lines 56-58): `close()` runs only when the
handle variable was bound. -/
def simple_finally (bound : Bool) : Nat := if bound then 1 else 0

/-- `simple_wii_example.main` (lines 11-58): try connect and loop,
`except RuntimeError` and `except KeyboardInterrupt` print messages, the
`finally` closes a bound handle; any other exception propagates. -/
def simple_main (ok : Bool) (events : List SimpleEvent) : Option RunResult :=
  if ok then
    (simple_loop events).map fun p =>
      match p.2 with
      | .sentinel =>
          { outputs := simple_intro ++ simple_setup ++ p.1,
            closes := simple_finally true, exit := .normal 0, loopEntered := true }
      | .interrupt =>
          { outputs := simple_intro ++ simple_setup ++ p.1 ++ ["\nExiting..."],
            closes := simple_finally true, exit := .normal 0, loopEntered := true }
      | .runtimeError _ =>
          { outputs := simple_intro ++ simple_setup ++ p.1 ++
              ["Failed to connect. Make sure your Wii remote is in discoverable mode."],
            closes := simple_finally true, exit := .normal 0, loopEntered := true }
      | .otherError m =>
          { outputs := simple_intro ++ simple_setup ++ p.1,
            closes := simple_finally true, exit := .uncaught m, loopEntered := true }
  else
    some { outputs := simple_intro ++
             ["Failed to connect. Make sure your Wii remote is in discoverable mode."],
           closes := simple_finally false, exit := .normal 0, loopEntered := false }

/-- C9: with no device handle (`self.wiimote is None`),
`get_battery_level` returns 0 rather than reading device state; with a
handle it reads the snapshot's battery ratio scaled by 100. -/
theorem get_battery_level_no_handle :
    get_battery_level none = 0 ∧
    ∀ w : WiimoteState, get_battery_level (some w) = w.battery * 100 :=
  ⟨rfl, fun _ => rfl⟩

/-! ## Theorems: sentinel-button exit (C2) -/

/-- A snapshot with the A and HOME bits set. -/
def homeSnap : WiimoteState :=
  { battery := 1, buttons := Cwiid.BTN_A ||| Cwiid.BTN_HOME, acc := (512, 512, 512),
    ir_src := [] }

/-- C2 counterexample: in the reader variant, an iteration whose
snapshot has the HOME (sentinel) bit set does not leave the poll loop,
refuting the claim for `read_inputs`. -/
theorem read_inputs_home_counterexample :
    homeSnap.buttons &&& Cwiid.BTN_HOME ≠ 0 ∧
    (read_inputs_iteration (.ok homeSnap)).2 = false :=
  ⟨by decide, rfl⟩

/-- C2 (amended): in the simple variant every iteration whose snapshot
has the HOME bit set prints the HOME message (and the A message when the
A bit is also set) and breaks out of the loop; the reader variant
formats the A and HOME labels but its iterations never leave the loop on
a snapshot. -/
theorem home_exit_spec (b : Nat) (hHome : b &&& Cwiid.BTN_HOME ≠ 0) :
    (simple_iteration b).2 = true ∧
    "HOME button pressed!" ∈ (simple_iteration b).1 ∧
    (b &&& Cwiid.BTN_A ≠ 0 → "A button pressed!" ∈ (simple_iteration b).1) ∧
    (∀ es, simple_loop (.ok b :: es) = some ((simple_iteration b).1, .sentinel)) ∧
    (∀ s : WiimoteState, (read_inputs_iteration (.ok s)).2 = false) ∧
    buttons_line (Cwiid.BTN_A ||| Cwiid.BTN_HOME) = "Buttons: A, HOME" := by
  have hit : (simple_iteration b).2 = true := by
    simp [simple_iteration, hHome]
  refine ⟨hit, ?_, ?_, ?_, fun s => rfl, by decide⟩
  · simp [simple_iteration, hHome]
  · intro hA
    simp [simple_iteration, hHome, hA]
  · intro es
    simp [simple_loop, hit]

/-- C2 witness: the A+HOME bitmask. -/
theorem home_exit_spec_witness :
    (Cwiid.BTN_A ||| Cwiid.BTN_HOME) &&& Cwiid.BTN_HOME ≠ 0 ∧
    ((simple_iteration (Cwiid.BTN_A ||| Cwiid.BTN_HOME)).2 = true ∧
     "HOME button pressed!" ∈ (simple_iteration (Cwiid.BTN_A ||| Cwiid.BTN_HOME)).1 ∧
     ((Cwiid.BTN_A ||| Cwiid.BTN_HOME) &&& Cwiid.BTN_A ≠ 0 →
       "A button pressed!" ∈ (simple_iteration (Cwiid.BTN_A ||| Cwiid.BTN_HOME)).1) ∧
     (∀ es, simple_loop (.ok (Cwiid.BTN_A ||| Cwiid.BTN_HOME) :: es) =
       some ((simple_iteration (Cwiid.BTN_A ||| Cwiid.BTN_HOME)).1, .sentinel)) ∧
     (∀ s : WiimoteState, (read_inputs_iteration (.ok s)).2 = false) ∧
     buttons_line (Cwiid.BTN_A ||| Cwiid.BTN_HOME) = "Buttons: A, HOME") :=
  ⟨by decide, home_exit_spec (Cwiid.BTN_A ||| Cwiid.BTN_HOME) (by decide)⟩

/-! ## Theorems: connection failure (C3) and teardown (C4, C10) -/

/-- C3 counterexample: in the simple variant a failed connection is
caught (`except RuntimeError`), and the process exits normally with
status 0, not through an uncaught runtime error. -/
theorem simple_connect_failure_counterexample :
    (simple_main false []).map RunResult.exit = some (ProcessExit.normal 0) := rfl

/-- C3 (amended): when `connect()` fails, both variants catch the error,
print a guidance message, and exit with status 0 without entering the
poll loop and without any `close()` call. -/
theorem connect_failure_spec :
    (∀ events : List SimpleEvent, ∃ r, simple_main false events = some r ∧
        r.exit = .normal 0 ∧ r.loopEntered = false ∧ r.closes = 0 ∧
        "Failed to connect. Make sure your Wii remote is in discoverable mode." ∈
          r.outputs) ∧
    (∀ (m : String) (events : List PollEvent), ∃ r,
        WiiRemoteReader_start false m events = some r ∧
        r.exit = .normal 0 ∧ r.loopEntered = false ∧ r.closes = 0 ∧
        "Make sure your Wii remote is in discoverable mode (press 1+2)" ∈ r.outputs ∧
        "Could not connect to Wii remote" ∈ r.outputs) := by
  constructor
  · intro events
    refine ⟨_, rfl, rfl, rfl, rfl, ?_⟩
    simp [simple_intro]
  · intro m events
    refine ⟨_, rfl, rfl, rfl, rfl, ?_, ?_⟩
    · simp [connect_outputs]
    · simp [connect_outputs]

/-- C4: whenever the poll loop terminates — sentinel button (simple
variant), interrupt, or read failure — the open handle is closed exactly
once before exit, in both variants. -/
theorem handle_released_once :
    (∀ (m : String) (events : List PollEvent) (r : RunResult),
        WiiRemoteReader_start true m events = some r → r.closes = 1) ∧
    (∀ (events : List SimpleEvent) (r : RunResult),
        simple_main true events = some r → r.closes = 1) := by
  constructor
  · intro m events r h
    simp only [WiiRemoteReader_start, if_true] at h
    rcases Option.map_eq_some'.mp h with ⟨out, hout, hr⟩
    rw [← hr]
    rfl
  · intro events r h
    simp only [simple_main, if_true] at h
    rcases Option.map_eq_some'.mp h with ⟨p, hp, hr⟩
    obtain ⟨outs, cause⟩ := p
    cases cause <;> rw [← hr] <;> rfl

/-- C4 witness: interrupt-terminated runs of both variants close the
handle exactly once. -/
theorem handle_released_once_witness :
    (∃ r, WiiRemoteReader_start true "err" [PollEvent.interrupt] = some r ∧
      r.closes = 1) ∧
    (∃ r, simple_main true [SimpleEvent.interrupt] = some r ∧ r.closes = 1) :=
  ⟨⟨_, rfl, handle_released_once.1 "err" [PollEvent.interrupt] _ rfl⟩,
   ⟨_, rfl, handle_released_once.2 [SimpleEvent.interrupt] _ rfl⟩⟩

/-- C10: in the simple variant, when the connection attempt fails the
handle variable was never bound, so the `finally` block performs no
`close()` call and the teardown raises nothing (the run still ends in a
normal status-0 exit). -/
theorem simple_no_close_without_handle :
    ∀ events : List SimpleEvent, ∃ r, simple_main false events = some r ∧
      r.closes = simple_finally false ∧ r.closes = 0 ∧ r.exit = .normal 0 :=
  fun _ => ⟨_, rfl, rfl, rfl, rfl⟩

/-! ## Theorems: battery percentage (C6) -/

theorem roundHalfEven_dist (y : ℚ) : |(roundHalfEven y : ℚ) - y| ≤ 1 / 2 := by
  have hf0 : ((⌊y⌋ : ℤ) : ℚ) ≤ y := Int.floor_le y
  have hf1 : y < ⌊y⌋ + 1 := Int.lt_floor_add_one y
  unfold roundHalfEven
  by_cases h1 : y - ⌊y⌋ < 1 / 2
  · rw [if_pos h1, abs_le]
    constructor <;> linarith
  · rw [if_neg h1]
    by_cases h2 : (1 : ℚ) / 2 < y - ⌊y⌋
    · rw [if_pos h2, abs_le]
      push_cast
      constructor <;> linarith
    · rw [if_neg h2]
      by_cases h3 : ⌊y⌋ % 2 = 0
      · rw [if_pos h3, abs_le]
        constructor <;> linarith
      · rw [if_neg h3, abs_le]
        push_cast
        constructor <;> linarith

theorem roundHalfEven_floor_le (y : ℚ) : ⌊y⌋ ≤ roundHalfEven y := by
  unfold roundHalfEven
  by_cases h1 : y - ⌊y⌋ < 1 / 2
  · rw [if_pos h1]
  · rw [if_neg h1]
    by_cases h2 : (1 : ℚ) / 2 < y - ⌊y⌋
    · rw [if_pos h2]; omega
    · rw [if_neg h2]
      by_cases h3 : ⌊y⌋ % 2 = 0
      · rw [if_pos h3]
      · rw [if_neg h3]; omega

/-- C6: the rendered battery percentage is the ratio scaled by 100 and
rounded to one decimal place; the displayed value matches the spec's
`round(r*100, 1)`, differs from the exact percentage by at most 0.05,
and stays within 0..100. -/
theorem battery_percentage (r : ℚ) (h0 : 0 ≤ r) (h1 : r ≤ 1) :
    (∀ b a i, "Battery: " ++ fmtFix1 (get_battery_level (some ⟨r, b, a, i⟩)) ++ "%" ∈
        renderFrame ⟨r, b, a, i⟩) ∧
    fix1_value (get_battery_level (some ⟨r, 0, (0, 0, 0), []⟩)) = spec_round1 (r * 100) ∧
    |spec_round1 (r * 100) - r * 100| ≤ 1 / 20 ∧
    0 ≤ spec_round1 (r * 100) ∧ spec_round1 (r * 100) ≤ 100 := by
  have hdist := roundHalfEven_dist (r * 100 * 10)
  have hmain : |spec_round1 (r * 100) - r * 100| ≤ 1 / 20 := by
    have hrw : spec_round1 (r * 100) - r * 100 =
        ((roundHalfEven (r * 100 * 10) : ℚ) - r * 100 * 10) / 10 := by
      unfold spec_round1
      ring
    rw [hrw, abs_div]
    rw [show |(10 : ℚ)| = 10 from by norm_num]
    linarith
  refine ⟨fun b a i => ?_, rfl, hmain, ?_, ?_⟩
  · simp [renderFrame]
  · have hfloor : 0 ≤ ⌊r * 100 * 10⌋ := Int.floor_nonneg.mpr (by positivity)
    have hle := roundHalfEven_floor_le (r * 100 * 10)
    unfold spec_round1
    have : (0 : ℚ) ≤ (roundHalfEven (r * 100 * 10) : ℚ) := by
      exact_mod_cast le_trans hfloor hle
    positivity
  · have habs := abs_le.mp hdist
    have hub : (roundHalfEven (r * 100 * 10) : ℚ) ≤ 1000 + 1 / 2 := by
      have : r * 100 * 10 ≤ 1000 := by linarith
      linarith [habs.2]
    have hlt : (roundHalfEven (r * 100 * 10) : ℚ) < 1001 := by linarith
    have hint : roundHalfEven (r * 100 * 10) < 1001 := by exact_mod_cast hlt
    unfold spec_round1
    have hle : (roundHalfEven (r * 100 * 10) : ℚ) ≤ 1000 := by
      have : roundHalfEven (r * 100 * 10) ≤ 1000 := by omega
      exact_mod_cast this
    linarith

/-- C6 witness: the mid-scale ratio one half renders as 50.0 percent. -/
theorem battery_percentage_witness :
    (0 : ℚ) ≤ 1 / 2 ∧ (1 / 2 : ℚ) ≤ 1 ∧
    ((∀ b a i, "Battery: " ++
          fmtFix1 (get_battery_level (some ⟨1 / 2, b, a, i⟩)) ++ "%" ∈
          renderFrame ⟨1 / 2, b, a, i⟩) ∧
      fix1_value (get_battery_level (some ⟨1 / 2, 0, (0, 0, 0), []⟩)) =
        spec_round1 ((1 / 2 : ℚ) * 100) ∧
      |spec_round1 ((1 / 2 : ℚ) * 100) - (1 / 2 : ℚ) * 100| ≤ 1 / 20 ∧
      0 ≤ spec_round1 ((1 / 2 : ℚ) * 100) ∧ spec_round1 ((1 / 2 : ℚ) * 100) ≤ 100) :=
  ⟨by norm_num, by norm_num, battery_percentage (1 / 2) (by norm_num) (by norm_num)⟩

end WiiVerify
